import Mathlib

/-!
Shallow embedding of the `id_newtype` crate (src/lib.rs): a validated
identifier newtype over `Cow<'s, str>`.  The `id_newtype!` macro generates,
for a user-chosen type name, the validator `is_valid_id`, fallible
constructors (`TryFrom<String>`, `TryFrom<&str>`, `FromStr`, `new`), the
trusted constructor `new_unchecked`, accessors (`as_str`, `into_inner`),
the lifetime-erasing `into_static`, and an error type `<Ty>InvalidFmt`
carrying the rejected text, with a two-line `Display` template.

Rust strings iterate Unicode scalar values via `chars()`; Lean `String.data`
is likewise a list of Unicode scalar `Char`s, so `String` models `str`
faithfully for the character-level grammar here.  `Cow<'s, str>` is modelled
as a two-constructor inductive recording the storage mode together with the
text content.
-/

namespace IdNewtype

/-- Embeds Rust `char::is_ascii_alphabetic`: `matches!(c, 'A'..='Z' | 'a'..='z')`,
i.e. code point in `[65, 90]` or `[97, 122]`. -/
def isAsciiAlphabetic (c : Char) : Bool :=
  (decide (65 ≤ c.toNat) && decide (c.toNat ≤ 90)) ||
  (decide (97 ≤ c.toNat) && decide (c.toNat ≤ 122))

/-- Embeds Rust `char::is_ascii_digit`: `matches!(c, '0'..='9')`,
i.e. code point in `[48, 57]`. -/
def isAsciiDigit (c : Char) : Bool :=
  decide (48 ≤ c.toNat) && decide (c.toNat ≤ 57)

/-- Embeds Rust `char::is_ascii`: code point at most `0x7F`. -/
def isAscii (c : Char) : Bool :=
  decide (c.toNat ≤ 127)

/-- Embeds `Cow<'s, str>` from `std`: either a borrowed reference to text or a
self-owned buffer.  The constructor records the storage mode; the payload is
the text content in both modes. -/
inductive Cow where
  | borrowed (s : String)
  | owned (s : String)
deriving DecidableEq

/-- The text a `Cow<'s, str>` dereferences to (`Deref for Cow`): the borrowed
slice or the owned buffer's content. -/
def Cow.str : Cow → String
  | borrowed s => s
  | owned s => s

/-- Embeds `Cow::into_owned`: `Borrowed(b) => b.to_owned()` (a copy with the
same content), `Owned(o) => o`.  In the model a copy is content identity. -/
def Cow.into_owned : Cow → String
  | borrowed s => s
  | owned s => s

/-- Embeds `Cow::clone` (via `derive(Clone)` on the newtype): `Borrowed`
stays `Borrowed` with the same reference, `Owned` reclones the buffer with
the same content. -/
def Cow.clone : Cow → Cow
  | borrowed s => borrowed s
  | owned s => owned s

/-- Embeds `std`'s `PartialEq for Cow<str>`: comparison of the dereferenced
`str` contents (`**self == **other`), independent of the storage mode. -/
def Cow.rustEq (a b : Cow) : Bool :=
  a.str == b.str

/-- Embeds the generated ID type `$ty_name(Cow<'s, str>)`: a newtype holding
one text payload in one of the two storage modes. -/
structure Identifier where
  val : Cow
deriving DecidableEq

/-- Embeds the generated error type `$ty_err_name<'s> { value: Cow<'s, str> }`:
the text that failed validation, in the storage mode it was supplied in. -/
structure IdInvalidFmt where
  value : Cow
deriving DecidableEq

/-- Embeds `$ty_err_name::new(value: Cow) -> Self` (src/lib.rs lines 322-326). -/
def IdInvalidFmt.new (value : Cow) : IdInvalidFmt :=
  ⟨value⟩

/-- Embeds `is_valid_id` (src/lib.rs lines 221-231): the first character from
`chars()` must be ASCII alphabetic or `'_'` (an empty string fails via
`unwrap_or(false)`), and every remaining character must be ASCII alphabetic,
`'_'`, or an ASCII digit. -/
def is_valid_id (proposed_id : String) : Bool :=
  match proposed_id.data with
  | [] => false
  | first_char :: rest =>
      (isAsciiAlphabetic first_char || first_char == '_') &&
      rest.all fun c => isAsciiAlphabetic c || c == '_' || isAsciiDigit c

/-- Embeds `as_str` (src/lib.rs lines 239-241, 376-378): the `&str` held by the
ID, i.e. the dereferenced content of the inner `Cow`. -/
def Identifier.as_str (id : Identifier) : String :=
  id.val.str

/-- Embeds `into_inner` (src/lib.rs lines 234-236): returns the inner `Cow`. -/
def Identifier.into_inner (id : Identifier) : Cow :=
  id.val

/-- Embeds `TryFrom<String> for $ty_name` (src/lib.rs lines 258-269): validate;
on success wrap the owned string as `Cow::Owned`; on failure wrap the same
string as `Cow::Owned` into the error. -/
def tryFromString (s : String) : Except IdInvalidFmt Identifier :=
  if is_valid_id s then
    Except.ok ⟨Cow.owned s⟩
  else
    Except.error (IdInvalidFmt.new (Cow.owned s))

/-- Embeds `TryFrom<&'static str>` (src/lib.rs lines 271-282) and the
lifetime-parameterized `TryFrom<&'lt str>` (lines 408-419), which have
identical bodies: validate; on success wrap the reference as `Cow::Borrowed`
(zero copy); on failure wrap the reference as `Cow::Borrowed` into the error. -/
def tryFromStr (s : String) : Except IdInvalidFmt Identifier :=
  if is_valid_id s then
    Except.ok ⟨Cow.borrowed s⟩
  else
    Except.error (IdInvalidFmt.new (Cow.borrowed s))

/-- Embeds `FromStr::from_str` (src/lib.rs lines 284-295 and 421-432, identical
bodies): validate; both branches copy with `String::from(s)` and wrap as
`Cow::Owned` — the success and the error are always in owned mode. -/
def from_str (s : String) : Except IdInvalidFmt Identifier :=
  if is_valid_id s then
    Except.ok ⟨Cow.owned s⟩
  else
    Except.error (IdInvalidFmt.new (Cow.owned s))

/-- Embeds `$ty_name::new` (src/lib.rs lines 146-148, 172-174, 198-200):
literally `Self::try_from(s)` on the `&str`, i.e. the borrowed-mode
conversion. -/
def Identifier.new (s : String) : Except IdInvalidFmt Identifier :=
  tryFromStr s

/-- Embeds `$ty_name::new_unchecked` (src/lib.rs lines 157-159, 209-211): wraps
the `&str` as `Cow::Borrowed` with no validation at all. -/
def Identifier.new_unchecked (s : String) : Identifier :=
  ⟨Cow.borrowed s⟩

/-- Embeds `into_static` (src/lib.rs lines 371-373):
`$ty_name(Cow::Owned(self.0.into_owned()))`. -/
def Identifier.into_static (id : Identifier) : Identifier :=
  ⟨Cow.owned id.val.into_owned⟩

/-- Embeds `derive(Clone)` on the newtype: clones the inner `Cow`. -/
def Identifier.clone (id : Identifier) : Identifier :=
  ⟨id.val.clone⟩

/-- Embeds `derive(PartialEq)` on the newtype: compares the single `Cow` field
with `std`'s content-based `Cow` equality. -/
def Identifier.rustEq (a b : Identifier) : Bool :=
  Cow.rustEq a.val b.val

/-- Embeds `derive(Hash)` on the newtype: the derived impl hashes the single
`Cow` field, and `std`'s `Hash for Cow` hashes the dereferenced `str`, so any
hasher sees exactly the text content.  The hasher is abstracted as a function
from the hashed text to a hash value. -/
def Identifier.rustHash (hasher : String → Nat) (id : Identifier) : Nat :=
  hasher id.val.str

/-- Embeds `Formatter::write_str`: appends the written text to the output
buffer accumulated so far. -/
def fmtWrite (f : String) (s : String) : String :=
  f ++ s

/-- Embeds `Display for Cow<str>` from `std`: defers to `Display for str`,
which writes the text verbatim. -/
def Cow.displayed : Cow → String
  | borrowed s => s
  | owned s => s

/-- Embeds `Display for $ty_name` (src/lib.rs lines 252-256, 389-393):
`write!(f, "{}", self.0)` writes the displayed inner `Cow` to the formatter. -/
def Identifier.fmt (id : Identifier) (f : String) : String :=
  fmtWrite f (Cow.displayed id.val)

/-- Rendering an `Identifier` to a string: run its `Display` impl on an empty
output buffer (as `format!("{}", id)` does). -/
def Identifier.display (id : Identifier) : String :=
  Identifier.fmt id ""

/-- Embeds `Display for $ty_err_name` (src/lib.rs lines 334-344): the fixed
template with the rejected value and the type name interpolated (the Rust
string continuation `\n\` contributes exactly one newline). -/
def IdInvalidFmt.render (ty_name : String) (e : IdInvalidFmt) : String :=
  "`" ++ e.value.str ++ "` is not a valid `" ++ ty_name ++ "`.\n`" ++ ty_name ++
    "`s must begin with a letter or underscore, and contain only letters, numbers, or underscores."

/-! ## Helper lemmas -/

lemma strExt (a b : String) (h : a.data = b.data) : a = b := by
  cases a
  cases b
  exact congrArg String.mk h

lemma strDataApp (a b : String) : (a ++ b).data = a.data ++ b.data :=
  rfl

lemma strAssoc (a b c : String) : a ++ b ++ c = a ++ (b ++ c) := by
  apply strExt
  simp [strDataApp]

/-- Any character accepted for the remainder of an identifier is ASCII. -/
lemma valid_char_isAscii (c : Char)
    (h : isAsciiAlphabetic c = true ∨ c = '_' ∨ isAsciiDigit c = true) :
    isAscii c = true := by
  rcases h with h | h | h
  · simp only [isAsciiAlphabetic, isAscii, Bool.or_eq_true, Bool.and_eq_true,
      decide_eq_true_eq] at h ⊢
    omega
  · subst h
    decide
  · simp only [isAsciiDigit, isAscii, Bool.and_eq_true, decide_eq_true_eq] at h ⊢
    omega

/-- Characterization of `is_valid_id` used by several claims. -/
lemma is_valid_id_iff (s : String) :
    is_valid_id s = true ↔
      ∃ c rest, s.data = c :: rest ∧
        (isAsciiAlphabetic c = true ∨ c = '_') ∧
        ∀ d ∈ rest, isAsciiAlphabetic d = true ∨ d = '_' ∨ isAsciiDigit d = true := by
  rcases hd : s.data with _ | ⟨c, rest⟩
  · simp [is_valid_id, hd]
  · simp only [is_valid_id, hd, Bool.and_eq_true, Bool.or_eq_true, beq_iff_eq,
      List.all_eq_true]
    constructor
    · rintro ⟨h1, h2⟩
      exact ⟨c, rest, rfl, h1, fun d hd => by
        rcases h2 d hd with (h | h) | h
        · exact Or.inl h
        · exact Or.inr (Or.inl h)
        · exact Or.inr (Or.inr h)⟩
    · rintro ⟨c', rest', heq, h1, h2⟩
      obtain ⟨rfl, rfl⟩ : c = c' ∧ rest = rest' := by
        constructor <;> [exact (List.cons.injEq _ _ _ _ ▸ heq).1;
          exact (List.cons.injEq _ _ _ _ ▸ heq).2]
      refine ⟨h1, fun d hd => ?_⟩
      rcases h2 d hd with h | h | h
      · exact Or.inl (Or.inl h)
      · exact Or.inl (Or.inr h)
      · exact Or.inr h

lemma Cow.into_owned_eq_str (c : Cow) : c.into_owned = c.str := by
  cases c <;> rfl

lemma Cow.clone_eq (c : Cow) : c.clone = c := by
  cases c <;> rfl

lemma Cow.displayed_eq_str (c : Cow) : c.displayed = c.str := by
  cases c <;> rfl

/-! ## Claims -/

/-- C1: `is_valid_id s` is true iff `s` is non-empty (its character list is a
cons), its first character is an ASCII letter or underscore, and every
remaining character is an ASCII letter, underscore, or ASCII digit; moreover
a string containing any non-ASCII character anywhere is invalid. -/
theorem is_valid_id_correct (s : String) :
    (is_valid_id s = true ↔
      ∃ c rest, s.data = c :: rest ∧
        (isAsciiAlphabetic c = true ∨ c = '_') ∧
        ∀ d ∈ rest, isAsciiAlphabetic d = true ∨ d = '_' ∨ isAsciiDigit d = true) ∧
    (∀ c ∈ s.data, isAscii c = false → is_valid_id s = false) := by
  refine ⟨is_valid_id_iff s, ?_⟩
  intro c hc hna
  cases hvb : is_valid_id s
  · rfl
  · exfalso
    obtain ⟨c0, rest, hd, h1, h2⟩ := (is_valid_id_iff s).1 hvb
    rw [hd] at hc
    rcases List.mem_cons.1 hc with rfl | hm
    · have hok : isAscii c = true := by
        apply valid_char_isAscii
        rcases h1 with h | h
        · exact Or.inl h
        · exact Or.inr (Or.inl h)
      rw [hok] at hna
      exact absurd hna (by decide)
    · have hok : isAscii c = true := valid_char_isAscii c (h2 c hm)
      rw [hok] at hna
      exact absurd hna (by decide)

/-- Witness for C1: the theorem applied at the concrete non-ASCII input
`"aé"` (the second character is U+00E9, outside ASCII). -/
theorem is_valid_id_correct_witness :
    is_valid_id "aé" = false :=
  (is_valid_id_correct "aé").2 'é' (by decide) (by decide)

/-- C2: every identifier produced by a validating constructor
(`TryFrom<String>`, `TryFrom<&str>`, `FromStr`, `new`) satisfies the grammar;
`into_static` and `clone` preserve the grammar; and `new_unchecked` can
produce an identifier violating it. -/
theorem validated_construction_invariant (s : String) (id : Identifier) :
    ((tryFromString s = Except.ok id ∨ tryFromStr s = Except.ok id ∨
      from_str s = Except.ok id ∨ Identifier.new s = Except.ok id) →
      is_valid_id (Identifier.as_str id) = true) ∧
    (is_valid_id (Identifier.as_str id) = true →
      is_valid_id (Identifier.as_str (Identifier.into_static id)) = true ∧
      is_valid_id (Identifier.as_str (Identifier.clone id)) = true) ∧
    ∃ t : String, is_valid_id (Identifier.as_str (Identifier.new_unchecked t)) = false := by
  refine ⟨?_, ?_, ⟨"", by decide⟩⟩
  · intro h
    rcases h with h | h | h | h <;>
      simp only [tryFromString, tryFromStr, from_str, Identifier.new] at h <;>
      split at h <;>
      first
        | (cases h; assumption)
        | simp at h
  · intro hinv
    constructor
    · simpa [Identifier.into_static, Identifier.as_str, Cow.str,
        Cow.into_owned_eq_str] using hinv
    · simpa [Identifier.clone, Cow.clone_eq, Identifier.as_str] using hinv

/-- Witness for C2: the invariant holds for the identifier built by
`TryFrom<String>` from `"a"`. -/
theorem validated_construction_invariant_witness :
    is_valid_id (Identifier.as_str ⟨Cow.owned "a"⟩) = true :=
  (validated_construction_invariant "a" ⟨Cow.owned "a"⟩).1
    (Or.inl (by simp [tryFromString, show is_valid_id "a" = true by decide]))

/-- C3: for every valid string, `TryFrom<String>` succeeds and `as_str` of the
resulting identifier is exactly the input string. -/
theorem round_trip_owned (s : String) (h : is_valid_id s = true) :
    ∃ id, tryFromString s = Except.ok id ∧ Identifier.as_str id = s := by
  refine ⟨⟨Cow.owned s⟩, ?_, rfl⟩
  simp [tryFromString, h]

/-- Witness for C3: the round trip at the concrete valid input `"abc"`. -/
theorem round_trip_owned_witness :
    is_valid_id "abc" = true ∧
      ∃ id, tryFromString "abc" = Except.ok id ∧ Identifier.as_str id = "abc" :=
  ⟨by decide, round_trip_owned "abc" (by decide)⟩

/-- C4: for every invalid string, each fallible constructor fails and the
error stores exactly the input text, in owned mode for `TryFrom<String>` and
`FromStr`, in borrowed mode for `TryFrom<&str>`; `value()` returns it
untruncated. -/
theorem error_fidelity (s : String) (h : is_valid_id s = false) :
    (∃ e, tryFromString s = Except.error e ∧
      IdInvalidFmt.value e = Cow.owned s ∧ Cow.str (IdInvalidFmt.value e) = s) ∧
    (∃ e, from_str s = Except.error e ∧
      IdInvalidFmt.value e = Cow.owned s ∧ Cow.str (IdInvalidFmt.value e) = s) ∧
    (∃ e, tryFromStr s = Except.error e ∧
      IdInvalidFmt.value e = Cow.borrowed s ∧ Cow.str (IdInvalidFmt.value e) = s) := by
  refine ⟨⟨⟨Cow.owned s⟩, ?_, rfl, rfl⟩, ⟨⟨Cow.owned s⟩, ?_, rfl, rfl⟩,
    ⟨⟨Cow.borrowed s⟩, ?_, rfl, rfl⟩⟩ <;>
    simp [tryFromString, from_str, tryFromStr, IdInvalidFmt.new, h]

/-- Witness for C4: error fidelity at the concrete invalid input `"1abc"`
(leading digit). -/
theorem error_fidelity_witness :
    is_valid_id "1abc" = false ∧
      ∃ e, tryFromStr "1abc" = Except.error e ∧
        IdInvalidFmt.value e = Cow.borrowed "1abc" ∧
        Cow.str (IdInvalidFmt.value e) = "1abc" :=
  ⟨by decide, (error_fidelity "1abc" (by decide)).2.2⟩

/-- C5: for every valid string, the owned-mode and borrowed-mode constructors
both succeed, the two identifiers compare equal under the derived `PartialEq`
(content-based `Cow` equality) and hash identically under every hasher; and
in general two identifiers are `PartialEq`-equal iff their texts coincide,
independent of storage mode. -/
theorem mode_independence (s : String) (h : is_valid_id s = true) :
    (∃ idO idB, tryFromString s = Except.ok idO ∧ tryFromStr s = Except.ok idB ∧
      Identifier.rustEq idO idB = true ∧
      ∀ hasher : String → Nat,
        Identifier.rustHash hasher idO = Identifier.rustHash hasher idB) ∧
    ∀ a b : Identifier,
      Identifier.rustEq a b = true ↔ Identifier.as_str a = Identifier.as_str b := by
  constructor
  · refine ⟨⟨Cow.owned s⟩, ⟨Cow.borrowed s⟩, ?_, ?_, ?_, fun hasher => rfl⟩
    · simp [tryFromString, h]
    · simp [tryFromStr, h]
    · simp [Identifier.rustEq, Cow.rustEq, Cow.str]
  · intro a b
    simp [Identifier.rustEq, Cow.rustEq, Identifier.as_str]

/-- Witness for C5: mode independence at the concrete valid input `"abc"`. -/
theorem mode_independence_witness :
    is_valid_id "abc" = true ∧
      ∃ idO idB, tryFromString "abc" = Except.ok idO ∧ tryFromStr "abc" = Except.ok idB ∧
        Identifier.rustEq idO idB = true ∧
        ∀ hasher : String → Nat,
          Identifier.rustHash hasher idO = Identifier.rustHash hasher idB :=
  ⟨by decide, (mode_independence "abc" (by decide)).1⟩

/-- C6: `FromStr::from_str` always produces owned storage — on success the
identifier holds an owned copy of the input, on failure the error holds an
owned copy of the input, never a borrowed reference. -/
theorem from_str_always_owned (s : String) :
    (is_valid_id s = true → from_str s = Except.ok ⟨Cow.owned s⟩) ∧
    (is_valid_id s = false →
      from_str s = Except.error (IdInvalidFmt.new (Cow.owned s))) := by
  constructor <;> intro h <;> simp [from_str, h]

/-- Witness for C6: `from_str` at the valid input `"abc"` and the invalid
input `"my-id"` (hyphen not permitted). -/
theorem from_str_always_owned_witness :
    from_str "abc" = Except.ok ⟨Cow.owned "abc"⟩ ∧
      from_str "my-id" = Except.error (IdInvalidFmt.new (Cow.owned "my-id")) :=
  ⟨(from_str_always_owned "abc").1 (by decide),
    (from_str_always_owned "my-id").2 (by decide)⟩

/-- C7: `into_static` unconditionally returns an identifier in owned mode
holding the same text, and it is idempotent, both as Lean equality and under
the derived `PartialEq`. -/
theorem into_static_owned_idempotent (id : Identifier) :
    Identifier.into_static id = ⟨Cow.owned (Identifier.as_str id)⟩ ∧
    Identifier.as_str (Identifier.into_static id) = Identifier.as_str id ∧
    Identifier.into_static (Identifier.into_static id) = Identifier.into_static id ∧
    Identifier.rustEq (Identifier.into_static (Identifier.into_static id))
      (Identifier.into_static id) = true := by
  obtain ⟨c⟩ := id
  cases c <;>
    simp [Identifier.into_static, Identifier.as_str, Cow.str, Cow.into_owned,
      Identifier.rustEq, Cow.rustEq]

/-- Counterexample for C8 as stated: the error for the rejected text
`"a\nb"` (which contains a newline and is a reachable error value, since
`"a\nb"` fails validation) renders with two newline characters, i.e. three
lines, not exactly two. -/
theorem error_render_not_always_two_lines :
    ¬ ((IdInvalidFmt.render "MyId"
        (IdInvalidFmt.new (Cow.owned "a\nb"))).data.count '\n' = 1) := by
  decide

/-- C8 (amended): whenever the type name and the rejected text contain no
newline, the rendered error is exactly two lines: the first line states the
rejected value (verbatim) is not a valid identifier of the given type name,
the second line restates the grammar rule. -/
theorem error_render_template (ty_name : String) (e : IdInvalidFmt)
    (hty : '\n' ∉ ty_name.data) (hv : '\n' ∉ (Cow.str (IdInvalidFmt.value e)).data) :
    ∃ l1 l2 : String,
      IdInvalidFmt.render ty_name e = l1 ++ "\n" ++ l2 ∧
      '\n' ∉ l1.data ∧ '\n' ∉ l2.data ∧
      l1 = "`" ++ Cow.str (IdInvalidFmt.value e) ++ "` is not a valid `" ++ ty_name ++ "`." ∧
      l2 = "`" ++ ty_name ++
        "`s must begin with a letter or underscore, and contain only letters, numbers, or underscores." := by
  refine ⟨_, _, ?_, ?_, ?_, rfl, rfl⟩
  · have hB : ("`.\n`" : String) = "`." ++ ("\n" ++ "`") := by decide
    simp only [IdInvalidFmt.render, hB, strAssoc]
  · intro hmem
    simp only [strDataApp, List.mem_append] at hmem
    rcases hmem with ((((h | h) | h) | h) | h)
    · exact absurd h (by decide)
    · exact hv h
    · exact absurd h (by decide)
    · exact hty h
    · exact absurd h (by decide)
  · intro hmem
    simp only [strDataApp, List.mem_append] at hmem
    rcases hmem with (h | h) | h
    · exact absurd h (by decide)
    · exact hty h
    · exact absurd h (by decide)

/-- Witness for C8 (amended): the template applied at the type name `"MyId"`
and the concrete rejected text `"my-id"`, neither containing a newline. -/
theorem error_render_template_witness :
    ('\n' ∉ ("MyId" : String).data) ∧
    ('\n' ∉ (Cow.str (IdInvalidFmt.value (IdInvalidFmt.new (Cow.owned "my-id")))).data) ∧
    ∃ l1 l2 : String,
      IdInvalidFmt.render "MyId" (IdInvalidFmt.new (Cow.owned "my-id")) = l1 ++ "\n" ++ l2 ∧
      '\n' ∉ l1.data ∧ '\n' ∉ l2.data ∧
      l1 = "`" ++ Cow.str (IdInvalidFmt.value (IdInvalidFmt.new (Cow.owned "my-id"))) ++
        "` is not a valid `" ++ "MyId" ++ "`." ∧
      l2 = "`" ++ "MyId" ++
        "`s must begin with a letter or underscore, and contain only letters, numbers, or underscores." :=
  ⟨by decide, by decide,
    error_render_template "MyId" (IdInvalidFmt.new (Cow.owned "my-id"))
      (by decide) (by decide)⟩

/-- C9: the `Display` impl of an identifier writes exactly the underlying
text to the formatter — appending it unchanged to any output buffer — so
rendering it alone yields exactly `as_str`. -/
theorem display_exact_text (id : Identifier) :
    Identifier.display id = Identifier.as_str id ∧
    ∀ f : String, Identifier.fmt id f = f ++ Identifier.as_str id := by
  obtain ⟨c⟩ := id
  cases c <;>
    exact ⟨rfl, fun f => rfl⟩

/-- C10: the named constructor `new` is literally the borrowed-mode
`TryFrom<&str>` conversion, so it agrees with it on every input, and both its
success value and its error hold the input in borrowed mode (no copy). -/
theorem new_is_borrowed_try_from (s : String) :
    Identifier.new s = tryFromStr s ∧
    (∀ id, Identifier.new s = Except.ok id → Identifier.val id = Cow.borrowed s) ∧
    (∀ e, Identifier.new s = Except.error e → IdInvalidFmt.value e = Cow.borrowed s) := by
  refine ⟨rfl, ?_, ?_⟩
  · intro id h
    simp only [Identifier.new, tryFromStr] at h
    split at h
    · cases h; rfl
    · simp at h
  · intro e h
    simp only [Identifier.new, tryFromStr] at h
    split at h
    · simp at h
    · cases h; rfl

/-- Witness for C10: `new` at the valid input `"abc"` yields the borrowed
identifier, and at the invalid input `"my id"` the borrowed error. -/
theorem new_is_borrowed_try_from_witness :
    Identifier.val ⟨Cow.borrowed "abc"⟩ = Cow.borrowed "abc" ∧
    IdInvalidFmt.value (IdInvalidFmt.new (Cow.borrowed "my id")) = Cow.borrowed "my id" :=
  ⟨(new_is_borrowed_try_from "abc").2.1 ⟨Cow.borrowed "abc"⟩
      (by simp [Identifier.new, tryFromStr, show is_valid_id "abc" = true by decide]),
    (new_is_borrowed_try_from "my id").2.2 (IdInvalidFmt.new (Cow.borrowed "my id"))
      (by simp [Identifier.new, tryFromStr, show is_valid_id "my id" = false by decide])⟩

end IdNewtype
